import Mathlib

/-!
Shallow embedding of `src/TestingComponent/index.ts` (class `TestingComponent`,
a Power Apps component-framework control that fetches a speech-service token,
runs one microphone recognition attempt and shows the result in a label).

Modelling choices, kept as close to the TypeScript as the claims need:

* JavaScript values that may be `null` or `undefined` are `Option String`
  (`none` = missing).  The TypeScript non-null assertion `raw!` does not
  convert at runtime, so it is modelled as the identity on the option.
* The control instance state that the claims talk about is `ControlState`:
  the `displayText` field, the label element content (`labelInnerHTML`,
  `labelClass`, `labelId`), the number of calls made to the host callback
  `notifyOutputChanged` (`notifyCount`), and a flag `pendingRecognition`
  modelling whether a `recognizeOnceAsync` callback has been registered and
  has not fired yet (the async machinery itself, not a field of the class).
* `axios.post` is external: its outcome is the parameter `PostOutcome`.
  axios resolves for 2xx responses and rejects otherwise; a rejection
  carries `err.response` only when a server response exists (`none` for a
  pure transport failure).  Reading `err.response.data` when `response` is
  `undefined` throws a `TypeError`; an `async` function surfaces a thrown
  error as a rejected promise, modelled by `Except.error`.
* The speech SDK is external: `SpeechConfig.fromAuthorizationToken`,
  `AudioConfig.fromDefaultMicrophoneInput` and the `SpeechRecognizer`
  constructor are modelled as record builders that record their arguments.
  `ResultReason` lists the terminal reason codes of the SDK enum that a
  single-shot recognition can deliver.
* `init` covers the synchronous body of `init` (lines 31-59); the
  fire-and-forget `this.sttFromMic()` continuation it starts is the
  function `sttFromMic`, applied to the state `init` produced, and the
  completion callback passed to `recognizeOnceAsync` (lines 101-111) is
  `recognitionCallback`, applied when the engine delivers its result.
-/

namespace TestingComponent

/-- The bound property as the framework hands it over
(`context.parameters.sampleProperty`): a raw value and a formatted value,
either of which can be missing (`null` / `undefined`). -/
structure StringProperty where
  raw : Option String
  formatted : Option String
deriving DecidableEq, Repr

/-- The slice of `ComponentFramework.Context` the control reads. -/
structure Context where
  sampleProperty : StringProperty
deriving DecidableEq, Repr

/-- The mutable state of a `TestingComponent` instance, plus bookkeeping for
the host callback and the async recognition attempt (see the file header). -/
structure ControlState where
  displayText : Option String
  labelInnerHTML : String
  labelClass : String
  labelId : String
  notifyCount : Nat
  pendingRecognition : Bool
deriving DecidableEq, Repr

/-- JavaScript conditional `x ? x : dflt` on a possibly missing string:
`undefined`, `null` and the empty string are falsy. -/
def jsSelect (x : Option String) (dflt : String) : String :=
  match x with
  | some s => if s = "" then dflt else s
  | none => dflt

/-- JavaScript `x || ""` on a possibly missing string. -/
def jsOrEmpty (x : Option String) : String :=
  match x with
  | some s => if s = "" then "" else s
  | none => ""

/-- Assigning a possibly-null value to `Element.innerHTML`: the attribute is
`[LegacyNullToEmptyString] DOMString`, so `null` becomes the empty string. -/
def innerHTMLAssign (v : Option String) : String :=
  match v with
  | some s => s
  | none => ""

/-- Lines 31-57 of `init`: build the label, read the bound value into
`displayText` (via the runtime-transparent `raw!`), set the label text from
`formatted ? formatted : "0"`.  The trailing `this.sttFromMic()` call is the
separate continuation `sttFromMic`. -/
def init (context : Context) : ControlState :=
  { displayText := context.sampleProperty.raw
  , labelInnerHTML := jsSelect context.sampleProperty.formatted "0"
  , labelClass := "LinearRangeLabel"
  , labelId := "lrclabel"
  , notifyCount := 0
  , pendingRecognition := false }

/-- `refreshData` (lines 114-117): copy `displayText` into the label and call
`notifyOutputChanged`. -/
def refreshData (s : ControlState) : ControlState :=
  { s with labelInnerHTML := innerHTMLAssign s.displayText
         , notifyCount := s.notifyCount + 1 }

/-- `updateView` (lines 123-130): overwrite `displayText` with the new raw
value (again through `raw!`) and the label with `formatted ? formatted : ""`. -/
def updateView (context : Context) (s : ControlState) : ControlState :=
  { s with displayText := context.sampleProperty.raw
         , labelInnerHTML := jsSelect context.sampleProperty.formatted "" }

/-- The output bag of the manifest: one bound property. -/
structure IOutputs where
  sampleProperty : Option String
deriving DecidableEq, Repr

/-- `getOutputs` (lines 136-140): return `displayText` as the bound output.
The returned pair makes the absence of state mutation explicit. -/
def getOutputs (s : ControlState) : IOutputs × ControlState :=
  ({ sampleProperty := s.displayText }, s)

/-- `destroy` (lines 146-148): the body is empty. -/
def destroy (s : ControlState) : ControlState :=
  s

/-- A server response as axios exposes it: `response.data` is the body. -/
structure AxiosResponse where
  data : String
deriving DecidableEq, Repr

/-- An axios rejection value: `err.response` is present only when the server
answered (non-2xx); a transport failure has no response. -/
structure AxiosError where
  response : Option AxiosResponse
deriving DecidableEq, Repr

/-- The outcome of the single `axios.post` to the token endpoint, seen from
the awaiting caller: resolved with a 2xx response, or rejected. -/
inductive PostOutcome where
  | ok (resp : AxiosResponse)
  | err (e : AxiosError)
deriving DecidableEq, Repr

/-- A JavaScript runtime error escaping a function (surfacing as a rejected
promise from an `async` function). -/
inductive JsError where
  | typeError (msg : String)
deriving DecidableEq, Repr

/-- The object `getTokenOrRefresh` resolves with.  The success branch builds
`\x7b authToken, region \x7d` (no `error` key); the catch branch builds
`\x7b authToken: null, error \x7d` (no `region` key).  A missing key reads as
`undefined`, so both shapes live in one record with `Option` fields. -/
structure TokenResult where
  authToken : Option String
  region : Option String
  error : Option String
deriving DecidableEq, Repr

/-- The hardcoded region (line 63). -/
def speechRegion : String := "westeurope"

/-- `getTokenOrRefresh` (lines 61-83).  On a resolved post, return the body
as `authToken` with the configured region.  On a rejected post, the catch
block evaluates `err.response.data`: when a server response exists this is
the error payload, but when `err.response` is `undefined` (transport
failure) the property read itself throws a `TypeError`, which escapes the
`async` function as a rejection. -/
def getTokenOrRefresh (outcome : PostOutcome) : Except JsError TokenResult :=
  match outcome with
  | PostOutcome.ok resp =>
      Except.ok { authToken := some resp.data, region := some speechRegion, error := none }
  | PostOutcome.err e =>
      match e.response with
      | some resp =>
          Except.ok { authToken := none, region := none, error := some resp.data }
      | none =>
          Except.error
            (JsError.typeError "Cannot read properties of undefined (reading data)")

/-- The speech-SDK configuration object, recording what the control set on
it: the authorization token and region passed to `fromAuthorizationToken`
and the `speechRecognitionLanguage` property. -/
structure SpeechConfig where
  authorizationToken : Option String
  region : String
  speechRecognitionLanguage : Option String
deriving DecidableEq, Repr

/-- `speechsdk.SpeechConfig.fromAuthorizationToken`, as the black box the
spec declares it to be: it records its two arguments; the recognition
language is not set yet. -/
def SpeechConfig.fromAuthorizationToken (authToken : Option String) (region : String) :
    SpeechConfig :=
  { authorizationToken := authToken, region := region, speechRecognitionLanguage := none }

/-- The audio source bound to the recognizer. -/
inductive AudioConfig where
  | defaultMicrophoneInput
deriving DecidableEq, Repr

/-- `speechsdk.SpeechRecognizer`, recording its constructor arguments. -/
structure SpeechRecognizer where
  config : SpeechConfig
  audio : AudioConfig
deriving DecidableEq, Repr

/-- The terminal reason codes a single-shot recognition can deliver
(`ResultReason` of the speech SDK). -/
inductive ResultReason where
  | recognizedSpeech
  | noMatch
  | canceled
deriving DecidableEq, Repr

/-- The result object handed to the `recognizeOnceAsync` callback. -/
structure RecognitionResult where
  reason : ResultReason
  text : String
deriving DecidableEq, Repr

/-- The placeholder written at line 99. -/
def placeholderText : String := "speak into your microphone..."

/-- The fixed error sentence of lines 106-107. -/
def errorMessage : String :=
  "ERROR: Speech was cancelled or could not be recognized. Ensure your microphone is working properly."

/-- `sttFromMic` (lines 85-112) up to and including the registration of the
`recognizeOnceAsync` callback: await the token fetch (a rejection
propagates), build the speech config from `tokenObj.authToken` and
`tokenObj.region || ""`, set the language to en-US, bind the default
microphone, construct the recognizer, write the placeholder into
`displayText` and start the attempt.  Returns the recognizer and the state
at the moment the attempt is pending. -/
def sttFromMic (outcome : PostOutcome) (s : ControlState) :
    Except JsError (SpeechRecognizer × ControlState) :=
  match getTokenOrRefresh outcome with
  | Except.error e => Except.error e
  | Except.ok tokenObj =>
      let speechConfig :=
        { SpeechConfig.fromAuthorizationToken tokenObj.authToken (jsOrEmpty tokenObj.region) with
            speechRecognitionLanguage := some "en-US" }
      let audioConfig := AudioConfig.defaultMicrophoneInput
      let recognizer : SpeechRecognizer := { config := speechConfig, audio := audioConfig }
      Except.ok
        (recognizer,
         { s with displayText := some placeholderText, pendingRecognition := true })

/-- The string the completion callback (lines 101-111) computes into its
local `displayText` variable. -/
def recognitionCallbackText (result : RecognitionResult) : String :=
  if result.reason = ResultReason.recognizedSpeech then
    String.append "RECOGNIZED: Text=" result.text
  else
    errorMessage

/-- The completion callback passed to `recognizeOnceAsync`: it assigns
`this.displayText` and nothing else; the attempt is over once it fired. -/
def recognitionCallback (result : RecognitionResult) (s : ControlState) : ControlState :=
  { s with displayText := some (recognitionCallbackText result)
         , pendingRecognition := false }

/-- Claim C2: for every result delivered to the completion callback, if the
reason is RecognizedSpeech with text t then Display Text becomes exactly
"RECOGNIZED: Text=" followed by t, and for any other reason it becomes
exactly the fixed error sentence. -/
theorem claim2_recognition_display_text
    (result : RecognitionResult) (s : ControlState) :
    (result.reason = ResultReason.recognizedSpeech →
      (recognitionCallback result s).displayText =
        some (String.append "RECOGNIZED: Text=" result.text)) ∧
    (result.reason ≠ ResultReason.recognizedSpeech →
      (recognitionCallback result s).displayText = some errorMessage) := by
  constructor
  · intro h
    simp [recognitionCallback, recognitionCallbackText, h]
  · intro h
    simp [recognitionCallback, recognitionCallbackText, h]

/-- Witness for C2: with text "hello" the callback writes exactly
"RECOGNIZED: Text=hello", and with reason NoMatch it writes exactly the
fixed error sentence, from the state `init` leaves behind. -/
theorem claim2_recognition_display_text_witness :
    (recognitionCallback
        { reason := ResultReason.recognizedSpeech, text := "hello" }
        (init { sampleProperty := { raw := some "v", formatted := some "5" } })).displayText =
      some "RECOGNIZED: Text=hello" ∧
    (recognitionCallback
        { reason := ResultReason.noMatch, text := "" }
        (init { sampleProperty := { raw := some "v", formatted := some "5" } })).displayText =
      some errorMessage :=
  ⟨(claim2_recognition_display_text
      { reason := ResultReason.recognizedSpeech, text := "hello" }
      (init { sampleProperty := { raw := some "v", formatted := some "5" } })).1 rfl,
   (claim2_recognition_display_text
      { reason := ResultReason.noMatch, text := "" }
      (init { sampleProperty := { raw := some "v", formatted := some "5" } })).2
      (by decide)⟩

/-- Claim C6: when the token endpoint answers 2xx with body T,
`getTokenOrRefresh` returns T with the configured region "westeurope", and
`sttFromMic` then configures the recognition client with authorization
token T, that region, and recognition language en-US. -/
theorem claim6_token_success_config (resp : AxiosResponse) (s : ControlState) :
    getTokenOrRefresh (PostOutcome.ok resp) =
      Except.ok { authToken := some resp.data, region := some speechRegion, error := none } ∧
    sttFromMic (PostOutcome.ok resp) s =
      Except.ok
        ({ config :=
             { authorizationToken := some resp.data
             , region := "westeurope"
             , speechRecognitionLanguage := some "en-US" }
         , audio := AudioConfig.defaultMicrophoneInput },
         { s with displayText := some placeholderText, pendingRecognition := true }) := by
  constructor
  · rfl
  · rfl

/-- Claim C7: when `getTokenOrRefresh` returns a null token (a rejected post
that carried a server response), the session does not abort: the client is
still configured, with a null authorization token and the empty string
substituted for the missing region, and the attempt proceeds (recognizer
constructed, placeholder written, callback registered). -/
theorem claim7_null_token_proceeds (resp : AxiosResponse) (s : ControlState) :
    getTokenOrRefresh (PostOutcome.err { response := some resp }) =
      Except.ok { authToken := none, region := none, error := some resp.data } ∧
    sttFromMic (PostOutcome.err { response := some resp }) s =
      Except.ok
        ({ config :=
             { authorizationToken := none
             , region := ""
             , speechRecognitionLanguage := some "en-US" }
         , audio := AudioConfig.defaultMicrophoneInput },
         { s with displayText := some placeholderText, pendingRecognition := true }) := by
  constructor
  · rfl
  · rfl

/-- Claim C8: `updateView` overwrites Display Text with the newly bound raw
value, leaves the in-flight recognition attempt untouched, and between
`updateView` and the completion callback whichever write happens last
determines the final Display Text. -/
theorem claim8_update_view_last_write_wins
    (context : Context) (result : RecognitionResult) (s : ControlState) :
    (updateView context s).displayText = context.sampleProperty.raw ∧
    (updateView context s).pendingRecognition = s.pendingRecognition ∧
    (recognitionCallback result (updateView context s)).displayText =
      some (recognitionCallbackText result) ∧
    (updateView context (recognitionCallback result s)).displayText =
      context.sampleProperty.raw := by
  refine ⟨rfl, rfl, rfl, rfl⟩

/-- Claim C9: `getOutputs` returns the current Display Text — the field that
every write (bound input, placeholder, recognition outcome) targets, so the
most recent write — and leaves the control state unchanged. -/
theorem claim9_get_outputs_pure_read
    (s : ControlState) (context : Context) (result : RecognitionResult) :
    getOutputs s = ({ sampleProperty := s.displayText }, s) ∧
    (getOutputs (updateView context s)).1.sampleProperty = context.sampleProperty.raw ∧
    (getOutputs (recognitionCallback result s)).1.sampleProperty =
      some (recognitionCallbackText result) ∧
    (getOutputs { s with displayText := some placeholderText }).1.sampleProperty =
      some placeholderText := by
  refine ⟨rfl, rfl, rfl, rfl⟩

/-- Claim C10: `destroy` leaves the whole control state unchanged — Display
Text, the label element and a pending recognition attempt included. -/
theorem claim10_destroy_noop (s : ControlState) :
    destroy s = s ∧
    (destroy s).displayText = s.displayText ∧
    (destroy s).labelInnerHTML = s.labelInnerHTML ∧
    (destroy s).pendingRecognition = s.pendingRecognition := by
  refine ⟨rfl, rfl, rfl, rfl⟩

/-- Claim C1, counterexample: the completion callback does not invoke the
refresh path.  From the state `init` leaves (label shows "5", no host
notification yet), firing the callback with a recognized result changes
`displayText` but leaves the label content and the notification count
unchanged — the new Display Text is not written into the rendered content
and the host is not notified. -/
theorem claim1_callback_no_refresh_counterexample :
    (recognitionCallback
        { reason := ResultReason.recognizedSpeech, text := "hello" }
        (init { sampleProperty := { raw := some "v", formatted := some "5" } })).displayText =
      some "RECOGNIZED: Text=hello" ∧
    (recognitionCallback
        { reason := ResultReason.recognizedSpeech, text := "hello" }
        (init { sampleProperty := { raw := some "v", formatted := some "5" } })).labelInnerHTML =
      "5" ∧
    (recognitionCallback
        { reason := ResultReason.recognizedSpeech, text := "hello" }
        (init { sampleProperty := { raw := some "v", formatted := some "5" } })).notifyCount =
      0 ∧
    ("5" : String) ≠ "RECOGNIZED: Text=hello" := by
  refine ⟨by decide, by decide, by decide, by decide⟩

/-- Claim C1, amended: `refreshData`, when invoked, writes the current
Display Text into the label and notifies the host, but the completion
callback of the recognition attempt never invokes it — the callback only
assigns the `displayText` field, leaving the label content and the
notification count exactly as they were. -/
theorem claim1_refresh_path_amended (s : ControlState) (result : RecognitionResult) :
    (refreshData s).labelInnerHTML = innerHTMLAssign s.displayText ∧
    (refreshData s).notifyCount = s.notifyCount + 1 ∧
    (refreshData s).displayText = s.displayText ∧
    (recognitionCallback result s).labelInnerHTML = s.labelInnerHTML ∧
    (recognitionCallback result s).notifyCount = s.notifyCount := by
  refine ⟨rfl, rfl, rfl, rfl, rfl⟩

/-- Claim C3, counterexample: on a transport failure (a rejected post with
no server response attached), the catch block evaluates
`err.response.data` on an undefined `response`, so a TypeError escapes
`getTokenOrRefresh` instead of a `token: null` result object. -/
theorem claim3_transport_failure_counterexample :
    getTokenOrRefresh (PostOutcome.err { response := none }) =
      Except.error
        (JsError.typeError "Cannot read properties of undefined (reading data)") ∧
    ∀ r : TokenResult,
      getTokenOrRefresh (PostOutcome.err { response := none }) ≠ Except.ok r := by
  refine ⟨rfl, ?_⟩
  intro r h
  exact Except.noConfusion h

/-- Claim C3, amended: for every failing token fetch in which the server
answered (a non-2xx HTTP response, so the rejection carries a response),
`getTokenOrRefresh` returns a result whose token field is null and whose
error field is the non-null server payload, and no exception escapes; a
transport failure with no server response instead raises a TypeError from
the catch block itself. -/
theorem claim3_token_failure_amended (e : AxiosError) :
    (∀ resp : AxiosResponse, e.response = some resp →
      getTokenOrRefresh (PostOutcome.err e) =
        Except.ok { authToken := none, region := none, error := some resp.data }) ∧
    (e.response = none →
      getTokenOrRefresh (PostOutcome.err e) =
        Except.error
          (JsError.typeError "Cannot read properties of undefined (reading data)")) := by
  constructor
  · intro resp h
    simp [getTokenOrRefresh, h]
  · intro h
    simp [getTokenOrRefresh, h]

/-- Witness for the amended C3: a rejection carrying the server payload
"err401" yields the null-token result, and a rejection with no response
yields the escaping TypeError. -/
theorem claim3_token_failure_amended_witness :
    getTokenOrRefresh (PostOutcome.err { response := some { data := "err401" } }) =
      Except.ok { authToken := none, region := none, error := some "err401" } ∧
    getTokenOrRefresh (PostOutcome.err { response := none }) =
      Except.error
        (JsError.typeError "Cannot read properties of undefined (reading data)") :=
  ⟨(claim3_token_failure_amended { response := some { data := "err401" } }).1
      { data := "err401" } rfl,
   (claim3_token_failure_amended { response := none }).2 rfl⟩

/-- Claim C4 (code bug): the field is declared `displayText: string`, but
`init` and `updateView` assign `context.parameters.sampleProperty.raw!`,
and the non-null assertion does not convert at runtime — when the bound
value is null, `displayText` holds null, not a string, and no empty-string
default exists anywhere.  Evaluated at the failing input (a context whose
`sampleProperty.raw` is null). -/
theorem claim4_display_text_null_bug :
    (init { sampleProperty := { raw := none, formatted := some "5" } }).displayText =
      none ∧
    (updateView { sampleProperty := { raw := none, formatted := none } }
        (init { sampleProperty := { raw := some "v", formatted := some "5" } })).displayText =
      none := by
  refine ⟨rfl, rfl⟩

/-- Claim C5, counterexample: the in-progress placeholder the recognition
flow writes is "speak into your microphone...", not "listening…".  With the
initial bound value "V" and a successful token fetch, the interim Display
Text after `sttFromMic` is the former string and differs from the latter. -/
theorem claim5_placeholder_counterexample :
    (match sttFromMic (PostOutcome.ok { data := "tok" })
        (init { sampleProperty := { raw := some "V", formatted := none } }) with
     | Except.ok p => p.2.displayText
     | Except.error _ => none) = some "speak into your microphone..." ∧
    ("speak into your microphone..." : String) ≠ "listening…" := by
  refine ⟨rfl, by decide⟩

/-- Claim C5, amended: for every valid initial bound value, after `init`
starts the recognition attempt and the attempt gets as far as starting
(the token post resolved, or was rejected with a server response), Display
Text is set to the in-progress placeholder "speak into your microphone..."
before any recognition result arrives (the attempt is still pending), and
this placeholder is the only interim state: every other piece of control
state is exactly as `init` left it. -/
theorem claim5_placeholder_amended (context : Context) (resp : AxiosResponse) :
    (∀ recognizer s1,
      sttFromMic (PostOutcome.ok resp) (init context) = Except.ok (recognizer, s1) →
        s1 = { init context with
                 displayText := some placeholderText
               , pendingRecognition := true }) ∧
    (∀ recognizer s1,
      sttFromMic (PostOutcome.err { response := some resp }) (init context) =
          Except.ok (recognizer, s1) →
        s1 = { init context with
                 displayText := some placeholderText
               , pendingRecognition := true }) := by
  constructor
  · intro recognizer s1 h
    simp [sttFromMic, getTokenOrRefresh] at h
    exact h.2.symm
  · intro recognizer s1 h
    simp [sttFromMic, getTokenOrRefresh] at h
    exact h.2.symm

/-- Witness for the amended C5: with bound value "V" and token "tok", the
interim state after `sttFromMic` is exactly the `init` state with the
placeholder written and the attempt pending. -/
theorem claim5_placeholder_amended_witness :
    ({ displayText := some placeholderText
     , labelInnerHTML := "0"
     , labelClass := "LinearRangeLabel"
     , labelId := "lrclabel"
     , notifyCount := 0
     , pendingRecognition := true } : ControlState) =
      { init { sampleProperty := { raw := some "V", formatted := none } } with
          displayText := some placeholderText
        , pendingRecognition := true } :=
  (claim5_placeholder_amended
      { sampleProperty := { raw := some "V", formatted := none } }
      { data := "tok" }).1
    { config :=
        { authorizationToken := some "tok"
        , region := "westeurope"
        , speechRecognitionLanguage := some "en-US" }
    , audio := AudioConfig.defaultMicrophoneInput }
    { displayText := some placeholderText
    , labelInnerHTML := "0"
    , labelClass := "LinearRangeLabel"
    , labelId := "lrclabel"
    , notifyCount := 0
    , pendingRecognition := true }
    rfl

end TestingComponent
